import Mathlib

/-!
Shallow embedding of the multimodal RAG system
(`src/multimodal-rag-system.py` and `src/retrival_research/GEMINI_final.py`).

External collaborators (the sentence-transformer encoder, the NLTK
tokenizer/lemmatizer, the Milvus index, the MongoDB blob store, the
Gemini chat model and the LangChain agent) are modelled as oracle
functions bundled in environment records; a Python call that may raise
is modelled as a function into `Except`.
-/

namespace GeminiFinal

/-- Python exceptions relevant to `GEMINI_final.py`: `pymilvus.MilvusException`
is caught by `perform_search`; every other exception class is modelled by
`otherError` and is not caught there. -/
inductive PyErr where
  | milvusException : String → PyErr
  | otherError : String → PyErr
deriving DecidableEq, Repr

/-- Oracle environment for `GEMINI_final.py`: NLTK tokenization and
lemmatization, the NLTK stopword list, the SentenceTransformer encoder
(`embedding_model.encode`), and the Milvus `Collection(...).search` call
(returning `(description, distance)` pairs, as consumed by the source). -/
structure GEnv where
  word_tokenize : String → List String
  lemmatize : String → String
  stop_words : List String
  encode : String → Except PyErr (List Float)
  collection_search : List Float → Nat → Except PyErr (List (String × Float))

/-- Python's `str.isalnum` restricted to the character classes Lean exposes:
a nonempty string all of whose characters are alphanumeric. -/
def python_isalnum (s : String) : Bool :=
  !s.data.isEmpty && s.data.all Char.isAlphanum

/-- The token list produced inside `preprocess_query`: tokenize the
lowercased query, keep alphanumeric non-stopword tokens, lemmatize each. -/
def processed_tokens (env : GEnv) (query : String) : List String :=
  (env.word_tokenize query.toLower).filter
    (fun token => python_isalnum token && !env.stop_words.contains token)
    |>.map env.lemmatize

/-- `preprocess_query` from `GEMINI_final.py`: tokenization, lowercasing,
stopword removal, lemmatization, rejoin with single spaces. -/
def preprocess_query (env : GEnv) (query : String) : String :=
  String.intercalate " " (processed_tokens env query)

/-- `pad_or_truncate` from `GEMINI_final.py`. -/
def pad_or_truncate (vector : List Float) (target_dim : Nat) : List Float :=
  if vector.length > target_dim then vector.take target_dim
  else vector ++ List.replicate (target_dim - vector.length) 0.0

/-- `get_embedding` from `GEMINI_final.py`: encode, then pad or truncate to
`target_dim`.  If the encoder raises, the exception propagates. -/
def get_embedding (env : GEnv) (text : String) (target_dim : Nat := 384) :
    Except PyErr (List Float) :=
  match env.encode text with
  | .error e => .error e
  | .ok embeddings => .ok (pad_or_truncate embeddings target_dim)

/-- `perform_search` from `GEMINI_final.py`: preprocess, embed, Milvus
similarity search with `limit=5`.  Only `MilvusException` is caught (and
turned into an empty result list); any other exception propagates. -/
def perform_search (env : GEnv) (query : String) :
    Except PyErr (List (String × Float)) :=
  let body : Except PyErr (List (String × Float)) :=
    match get_embedding env (preprocess_query env query) 384 with
    | .error e => .error e
    | .ok user_vector =>
        match env.collection_search user_vector 5 with
        | .error e => .error e
        | .ok search_results => .ok search_results
  match body with
  | .ok r => .ok r
  | .error (PyErr.milvusException _) => .ok []
  | .error e => .error e

end GeminiFinal

namespace MMRag

/-- Opaque image payload (a PIL image in the source); `none` models a raw
match whose `"image"` entry is absent or `None`. -/
abbrev ImageData := String

/-- Errors raised by external calls in `multimodal-rag-system.py`; the
source catches bare `Exception`, so one string-carrying class suffices. -/
abbrev Err := String

/-- A raw document hit from the Milvus text collection: `page_content` is
always present, each metadata key may be absent (`doc.metadata.get`). -/
structure TextDoc where
  page_content : String
  source : Option String
  page : Option String
  module_code : Option String
  module_name : Option String
  lecture_number : Option String
  lecture_title : Option String
deriving DecidableEq, Repr

/-- The formatted text result dictionary built by `search_text_chunks`. -/
structure TextMatch where
  content : String
  source : String
  page : String
  module_code : String
  module_name : String
  lecture_number : String
  lecture_title : String
deriving DecidableEq, Repr

/-- A raw match returned by `search_images_by_text`: the image payload and
every metadata key may be absent (`match.get`). -/
structure RawImageMatch where
  image : Option ImageData
  similarity_score : Option ℚ
  lecture_code : Option String
  lecture_number : Option String
  lecture_title : Option String
  page_number : Option String
  text : Option String
deriving DecidableEq, Repr

/-- The formatted image result dictionary built by `search_images`. -/
structure ImageMatch where
  image_data : String
  similarity_score : ℚ
  lecture_code : String
  lecture_number : String
  lecture_title : String
  page_number : String
  text : String
deriving DecidableEq, Repr

/-- The response dictionary returned by `generate_combined_response`. -/
structure AnswerResult where
  answer_text : String
  image_results : List ImageMatch
  has_images : Bool
  original_query : String
deriving DecidableEq, Repr

/-- Oracle environment for `multimodal-rag-system.py`: the composite
embedding + Milvus text query (`HuggingFaceEmbeddings` + `Milvus` +
`similarity_search`), the composite image query (`search_images_by_text`),
the per-image PNG re-encoding to base64 (`save` + `b64encode`), the Gemini
chat model (`llm.invoke`) and the LangChain agent (`agent.run`). -/
structure Env where
  text_index : String → Nat → Except Err (List TextDoc)
  image_index : String → Nat → Except Err (List RawImageMatch)
  encode_image : ImageData → Except Err String
  llm_invoke : String → Except Err String
  agent_run : String → Except Err String

/-- `True` iff the modelled Python call raised. -/
def isErr {α : Type} : Except Err α → Bool
  | .error _ => true
  | .ok _ => false

/-- The formatting step of `search_text_chunks`: every missing metadata
key defaults to `"Unknown"` via `doc.metadata.get(key, "Unknown")`. -/
def toTextMatch (doc : TextDoc) : TextMatch :=
  { content := doc.page_content
    source := doc.source.getD "Unknown"
    page := doc.page.getD "Unknown"
    module_code := doc.module_code.getD "Unknown"
    module_name := doc.module_name.getD "Unknown"
    lecture_number := doc.lecture_number.getD "Unknown"
    lecture_title := doc.lecture_title.getD "Unknown" }

/-- `search_text_chunks` from `multimodal-rag-system.py` (default
`top_k=5`): on any exception from the embedding/Milvus call, log and
return `[]`. -/
def search_text_chunks (env : Env) (query : String) (top_k : Nat := 5) :
    List TextMatch :=
  match env.text_index query top_k with
  | .ok docs => docs.map toTextMatch
  | .error _ => []

/-- The result dictionary `search_images` builds for a raw match whose
image was re-encoded to the base64 string `img_str`: metadata keys
default to `"Unknown"`, `similarity_score` to `0`, `text` to
`"No text available"`. -/
def mkImageResult (m : RawImageMatch) (img_str : String) : ImageMatch :=
  { image_data := img_str
    similarity_score := m.similarity_score.getD 0
    lecture_code := m.lecture_code.getD "Unknown"
    lecture_number := m.lecture_number.getD "Unknown"
    lecture_title := m.lecture_title.getD "Unknown"
    page_number := m.page_number.getD "Unknown"
    text := m.text.getD "No text available" }

/-- The per-match body of the loop in `search_images`: a match with no
image payload is skipped (`continue`), a match whose PNG/base64
re-encoding raises is skipped (inner `except`), otherwise the formatted
result is appended. -/
def processRawMatch (env : Env) (m : RawImageMatch) : Option ImageMatch :=
  match m.image with
  | none => none
  | some img =>
      match env.encode_image img with
      | .error _ => none
      | .ok img_str => some (mkImageResult m img_str)

/-- `search_images` from `multimodal-rag-system.py` (default `top_k=3`):
on any exception from `search_images_by_text`, log and return `[]`;
otherwise process each match, dropping payload-less or failing ones. -/
def search_images (env : Env) (query : String) (top_k : Nat := 3) :
    List ImageMatch :=
  match env.image_index query top_k with
  | .ok raw_matches => raw_matches.filterMap (processRawMatch env)
  | .error _ => []

/-- The body of the `text_context` join in `generate_combined_response`:
one block per text result, joined with blank lines. -/
def format_text_context (text_results : List TextMatch) : String :=
  String.intercalate "\n\n" (text_results.map (fun result =>
    "Source: " ++ result.module_code ++ ", Lecture " ++ result.lecture_number ++
    ", Page " ++ result.page ++ "\nContent: " ++ result.content))

/-- One line of the `image_context` join in `generate_combined_response`
(`i` is the 0-based `enumerate` index; the caption is truncated to 100
characters). -/
def format_image_line (i : Nat) (img : ImageMatch) : String :=
  "Image " ++ toString (i + 1) ++ ": From " ++ img.lecture_code ++
  ", Lecture " ++ img.lecture_number ++ ", Page " ++ img.page_number ++
  " - Related to: " ++ img.text.take 100 ++ "...\n"

/-- The body of the `image_context` join in `generate_combined_response`. -/
def format_image_context (image_results : List ImageMatch) : String :=
  String.intercalate "\n" (image_results.enum.map
    (fun p => format_image_line p.1 p.2))

/-- The text-context slot of the prompt: Python's
`text_context if text_context else "No relevant text information found."`,
where `text_context` is `""` when `text_results` is empty. -/
def text_block (text_results : List TextMatch) : String :=
  let text_context := if text_results.isEmpty then "" else
    format_text_context text_results
  if text_context = "" then "No relevant text information found."
  else text_context

/-- The image-references slot of the prompt, analogous to `text_block`. -/
def image_block (image_results : List ImageMatch) : String :=
  let image_context := if image_results.isEmpty then "" else
    format_image_context image_results
  if image_context = "" then "No relevant images found."
  else image_context

/-- The fixed five-directive instruction tail of the prompt f-string
(indentation of the triple-quoted source literal included). -/
def instructions_block : String :=
  "INSTRUCTIONS:\n        1. Based on the provided context, answer the user's query thoroughly.\n        2. ALWAYS cite the specific lecture numbers when providing information (e.g., \"As explained in Lecture 3...\" or \"According to Lecture 5...\").\n        3. If there are relevant images that would help illustrate your answer, mention them by referring to their number and lecture (e.g., \"As shown in Image 1 from Lecture 2...\").\n        4. Make the lecture number references a natural part of your answer, not just citations at the end.\n        5. If the lecture number is unknown for some sources, you can mention this (e.g., \"from an unspecified lecture\").\n        "

/-- The prompt f-string with its three holes: the slots vary with the
retrieval results, the surrounding text (directives included) is fixed. -/
def prompt_template (query text_slot image_slot : String) : String :=
  "\n        User Query: " ++ query ++
  "\n        \n        Text Context:\n        " ++ text_slot ++
  "\n        \n        Image References:\n        " ++ image_slot ++
  "\n        \n        " ++ instructions_block

/-- The enhanced prompt built in `generate_combined_response`. -/
def build_prompt (query : String) (text_results : List TextMatch)
    (image_results : List ImageMatch) : String :=
  prompt_template query (text_block text_results) (image_block image_results)

/-- The smoke-test prompt sent to the model before anything else. -/
def test_prompt : String := "Hello, are you working properly?"

/-- The reformulated instruction handed to the fallback agent. -/
def agent_prompt (query : String) : String :=
  "Please answer this query, and make sure to reference the specific lecture numbers when providing information: " ++ query

/-- Apology returned when the direct tier and the agent tier both fail. -/
def inner_apology : String :=
  "I encountered an error while generating an answer. Please try again or rephrase your question."

/-- Apology returned by the outermost `except` of
`generate_combined_response`. -/
def outer_apology : String :=
  "I encountered an error while processing your query. Please try again or rephrase your question."

/-- Everything inside the outer `try` of `generate_combined_response`:
the LLM smoke test (whose failure is re-raised), one retrieval pass,
prompt building, then the direct tier, the agent tier, and the inner
apology.  The inner tiers catch their own exceptions, so after the smoke
test succeeds the body cannot raise. -/
def generate_body (env : Env) (query : String) : Except Err AnswerResult :=
  match env.llm_invoke test_prompt with
  | .error e => .error e
  | .ok _ =>
      let text_results := search_text_chunks env query
      let image_results := search_images env query
      let prompt := build_prompt query text_results image_results
      match env.llm_invoke prompt with
      | .ok response =>
          .ok { answer_text := response
                image_results := image_results
                has_images := decide (image_results.length > 0)
                original_query := query }
      | .error _ =>
          match env.agent_run (agent_prompt query) with
          | .ok agent_response =>
              .ok { answer_text := agent_response
                    image_results := image_results
                    has_images := decide (image_results.length > 0)
                    original_query := query }
          | .error _ =>
              .ok { answer_text := inner_apology
                    image_results := image_results
                    has_images := decide (image_results.length > 0)
                    original_query := query }

/-- `generate_combined_response` from `multimodal-rag-system.py`: the body
above wrapped in the outermost `except Exception`, which resolves to the
simplified fallback dictionary. -/
def generate_combined_response (env : Env) (query : String) : AnswerResult :=
  match generate_body env query with
  | .ok r => r
  | .error _ =>
      { answer_text := outer_apology
        image_results := []
        has_images := false
        original_query := query }

/-- Modelled from the spec: the `EmbeddingConfig` class is imported from
the `pdf_processor` module, whose source is not available; per the spec it
is an immutable configuration bundle governing index writes, with
`image_weight`/`text_weight`, a similarity threshold, a batch size,
dimension-reduction and alignment settings, and the two target collection
names.  Immutability is modelled by this being a plain structure with no
update operation; numeric fields use exact rationals. -/
structure EmbeddingConfig where
  image_weight : ℚ
  text_weight : ℚ
  similarity_threshold : ℚ
  batch_size : Nat
  use_dim_reduction : Bool
  output_dim : Nat
  use_embedding_alignment : Bool
  mongodb_collection : String
  milvus_collection : String
deriving DecidableEq, Repr

/-- The `EmbeddingConfig(...)` construction at the ingestion call site of
`multimodal-rag-system.py`: `text_weight` is set to `1.0 - image_weight`,
every other field is passed through from the form. -/
def mk_ingestion_config (image_weight similarity_threshold : ℚ)
    (batch_size : Nat) (use_dim_reduction : Bool) (output_dim : Nat)
    (use_alignment : Bool) (mongo_collection milvus_collection : String) :
    EmbeddingConfig :=
  { image_weight := image_weight
    text_weight := 1 - image_weight
    similarity_threshold := similarity_threshold
    batch_size := batch_size
    use_dim_reduction := use_dim_reduction
    output_dim := output_dim
    use_embedding_alignment := use_alignment
    mongodb_collection := mongo_collection
    milvus_collection := milvus_collection }

end MMRag

namespace GeminiFinal

/-- Concrete environment whose embedding model always raises a generic
(non-Milvus) exception. -/
def genv_embed_down : GEnv :=
  { word_tokenize := fun _ => []
    lemmatize := fun t => t
    stop_words := []
    encode := fun _ => .error (PyErr.otherError "embedding model failure")
    collection_search := fun _ _ => .ok [] }

/-- Concrete environment whose Milvus search always raises
`MilvusException` while the embedding model works. -/
def genv_milvus_down : GEnv :=
  { word_tokenize := fun _ => []
    lemmatize := fun t => t
    stop_words := []
    encode := fun _ => .ok [1.0]
    collection_search := fun _ _ => .error (PyErr.milvusException "milvus down") }

/-- Concrete well-behaved environment: a two-token oracle tokenizer,
identity lemmatizer, no stopwords. -/
def genv_id : GEnv :=
  { word_tokenize := fun _ => ["hello", "world"]
    lemmatize := fun t => t
    stop_words := []
    encode := fun _ => .ok []
    collection_search := fun _ _ => .ok [] }

/-- Concrete environment modelling the relevant slice of the real NLTK
collaborators: `word_tokenize` returns a one-word query as its single
token, the WordNet lemmatizer maps the plural noun `"cans"` to `"can"`,
and `"can"` (the modal verb) is in the English stopword list while
`"cans"` is not. -/
def genv_nltk : GEnv :=
  { word_tokenize := fun s => [s]
    lemmatize := fun t => if t = "cans" then "can" else t
    stop_words := ["i", "me", "my", "can", "will", "just"]
    encode := fun _ => .ok []
    collection_search := fun _ _ => .ok [] }

/-- Concrete environment whose embedding model returns a 2-dimensional
raw vector. -/
def genv_pad : GEnv :=
  { word_tokenize := fun _ => []
    lemmatize := fun t => t
    stop_words := []
    encode := fun _ => .ok [1.0, 2.0]
    collection_search := fun _ _ => .ok [] }

end GeminiFinal

namespace MMRag

/-- Concrete environment where every external collaborator raises. -/
def env_down : Env :=
  { text_index := fun _ _ => .error "milvus down"
    image_index := fun _ _ => .error "milvus down"
    encode_image := fun _ => .error "pil error"
    llm_invoke := fun _ => .error "llm down"
    agent_run := fun _ => .error "agent down" }

/-- A fully-populated raw image match. -/
def raw_demo : RawImageMatch :=
  { image := some "PNGDATA"
    similarity_score := some (9 / 10 : ℚ)
    lecture_code := some "IT3061"
    lecture_number := some "3"
    lecture_title := some "Gradient Descent"
    page_number := some "12"
    text := some "gradient descent diagram" }

/-- A raw image match whose image payload is absent. -/
def raw_no_payload : RawImageMatch :=
  { image := none
    similarity_score := some (1 / 2 : ℚ)
    lecture_code := some "IT3061"
    lecture_number := some "2"
    lecture_title := none
    page_number := some "5"
    text := some "missing payload" }

/-- A raw image match with a payload but no metadata at all. -/
def raw_all_missing : RawImageMatch :=
  { image := some "IMGBYTES"
    similarity_score := none
    lecture_code := none
    lecture_number := none
    lecture_title := none
    page_number := none
    text := none }

/-- A raw text document with no metadata at all. -/
def doc_missing : TextDoc :=
  { page_content := "Gradient descent minimizes a loss function."
    source := none
    page := none
    module_code := none
    module_name := none
    lecture_number := none
    lecture_title := none }

/-- Concrete environment where the smoke test succeeds, the direct
generation call fails, and the agent succeeds. -/
def env_agent : Env :=
  { text_index := fun _ _ => .ok []
    image_index := fun _ _ => .ok [raw_demo]
    encode_image := fun img => .ok ("b64:" ++ img)
    llm_invoke := fun p => if p = test_prompt then .ok "OK" else .error "quota exceeded"
    agent_run := fun _ => .ok "Agent answer citing Lecture 3." }

/-- Concrete environment where both retrievers return nothing and direct
generation succeeds. -/
def env_empty : Env :=
  { text_index := fun _ _ => .ok []
    image_index := fun _ _ => .ok []
    encode_image := fun img => .ok img
    llm_invoke := fun p => if p = test_prompt then .ok "OK" else .ok "Answer with no context."
    agent_run := fun _ => .error "unused" }

/-- Concrete environment whose image index returns one payload-less and
one complete match. -/
def env_imgs : Env :=
  { text_index := fun _ _ => .ok []
    image_index := fun _ _ => .ok [raw_no_payload, raw_demo]
    encode_image := fun img => .ok ("b64:" ++ img)
    llm_invoke := fun _ => .ok "OK"
    agent_run := fun _ => .ok "OK" }

/-- Concrete environment whose image index returns one match that has a
payload but no metadata. -/
def env_missing_meta : Env :=
  { text_index := fun _ _ => .ok []
    image_index := fun _ _ => .ok [raw_all_missing]
    encode_image := fun img => .ok img
    llm_invoke := fun _ => .ok "OK"
    agent_run := fun _ => .ok "OK" }

/-- Concrete environment whose text index returns one metadata-less
document. -/
def env_text_missing : Env :=
  { text_index := fun _ _ => .ok [doc_missing]
    image_index := fun _ _ => .ok []
    encode_image := fun img => .ok img
    llm_invoke := fun _ => .ok "OK"
    agent_run := fun _ => .ok "OK" }

/-- `decide (l.length > 0)` (the Python `len(xs) > 0`) agrees with
non-emptiness of `l`. -/
theorem decide_length_pos {α : Type} (l : List α) :
    decide (l.length > 0) = !l.isEmpty := by
  cases l <;> simp

end MMRag

namespace GeminiFinal

/-- C4 counterexample: `preprocess_query` is not idempotent.  Stopwords
are filtered before lemmatization, so a kept token whose lemma is itself
a stopword survives the first pass but is removed by the second: with the
real collaborators' behavior (`lemmatize "cans" = "can"`, `"can"` a
stopword), `preprocess_query "cans" = "can"` but re-normalizing `"can"`
yields `""`. -/
theorem preprocess_query_not_idempotent :
    preprocess_query genv_nltk "cans" = "can" ∧
    preprocess_query genv_nltk (preprocess_query genv_nltk "cans") = "" ∧
    preprocess_query genv_nltk (preprocess_query genv_nltk "cans")
      ≠ preprocess_query genv_nltk "cans" := by
  have hlow1 : "cans".toLower = "cans" := by
    delta String.toLower String.map
    rw [String.mapAux.eq_def, dif_neg (by decide)]
    dsimp only
    rw [String.mapAux.eq_def, dif_neg (by decide)]
    dsimp only
    rw [String.mapAux.eq_def, dif_neg (by decide)]
    dsimp only
    rw [String.mapAux.eq_def, dif_neg (by decide)]
    dsimp only
    rw [String.mapAux.eq_def, dif_pos (by decide)]
    decide
  have hlow2 : "can".toLower = "can" := by
    delta String.toLower String.map
    rw [String.mapAux.eq_def, dif_neg (by decide)]
    dsimp only
    rw [String.mapAux.eq_def, dif_neg (by decide)]
    dsimp only
    rw [String.mapAux.eq_def, dif_neg (by decide)]
    dsimp only
    rw [String.mapAux.eq_def, dif_pos (by decide)]
    decide
  have h1 : preprocess_query genv_nltk "cans" = "can" := by
    unfold preprocess_query processed_tokens
    rw [hlow1]
    rfl
  have h2 : preprocess_query genv_nltk (preprocess_query genv_nltk "cans")
      = "" := by
    rw [h1]
    unfold preprocess_query processed_tokens
    rw [hlow2]
    rfl
  refine ⟨h1, h2, ?_⟩
  rw [h2, h1]
  decide

/-- C4 (amended): `preprocess_query` is idempotent exactly on the inputs
where a second pass cannot disturb the processed tokens: if tokenizing
the rejoined lowercased output recovers the processed tokens, and each
processed token is a lemma fixpoint, alphanumeric, and not a stopword,
then re-normalizing changes nothing.  (In general idempotence fails,
because stopword filtering precedes lemmatization — see the
counterexample.) -/
theorem preprocess_query_idempotent (env : GEnv) (q : String)
    (htok : env.word_tokenize
        ((String.intercalate " " (processed_tokens env q)).toLower)
      = processed_tokens env q)
    (hfix : ∀ t ∈ processed_tokens env q,
      env.lemmatize t = t ∧ python_isalnum t = true ∧
        env.stop_words.contains t = false) :
    preprocess_query env (preprocess_query env q) = preprocess_query env q := by
  have step : processed_tokens env (preprocess_query env q)
      = ((processed_tokens env q).filter
          (fun token => python_isalnum token && !env.stop_words.contains token)).map
          env.lemmatize := by
    show ((env.word_tokenize
        ((String.intercalate " " (processed_tokens env q)).toLower)).filter
          (fun token => python_isalnum token && !env.stop_words.contains token)).map
          env.lemmatize = _
    rw [htok]
  have hfilter : (processed_tokens env q).filter
      (fun token => python_isalnum token && !env.stop_words.contains token)
      = processed_tokens env q := by
    apply List.filter_eq_self.mpr
    intro t ht
    obtain ⟨_, h2, h3⟩ := hfix t ht
    have h3' : t ∉ env.stop_words := by simpa using h3
    simp [h2, h3']
  have hmap : (processed_tokens env q).map env.lemmatize
      = processed_tokens env q := by
    conv_rhs => rw [← List.map_id (processed_tokens env q)]
    apply List.map_congr_left
    intro t ht
    exact (hfix t ht).1
  show String.intercalate " " (processed_tokens env (preprocess_query env q))
      = String.intercalate " " (processed_tokens env q)
  rw [step, hfilter, hmap]

/-- C4 witness: idempotence evaluated in a concrete well-behaved
environment on the query `"Hello World"`. -/
theorem preprocess_query_idempotent_witness :
    preprocess_query genv_id (preprocess_query genv_id "Hello World")
      = preprocess_query genv_id "Hello World" :=
  preprocess_query_idempotent genv_id "Hello World" (by decide) (by decide)

/-- C5: `get_embedding` pads or truncates the raw model vector to the
requested dimension: the result has length exactly `target_dim`; a raw
vector at least as long is truncated to its first `target_dim` entries
and a shorter one is zero-padded on the right (no interpolation). -/
theorem get_embedding_length (env : GEnv) (text : String) (target_dim : Nat)
    (v : List Float) (henc : env.encode text = Except.ok v) :
    get_embedding env text target_dim
      = Except.ok (pad_or_truncate v target_dim) ∧
    (pad_or_truncate v target_dim).length = target_dim ∧
    (target_dim ≤ v.length →
      pad_or_truncate v target_dim = v.take target_dim) ∧
    (v.length < target_dim →
      pad_or_truncate v target_dim
        = v ++ List.replicate (target_dim - v.length) 0.0) := by
  refine ⟨by simp [get_embedding, henc], ?_, ?_, ?_⟩
  · unfold pad_or_truncate
    split
    · rename_i h
      rw [List.length_take]
      omega
    · rename_i h
      rw [List.length_append, List.length_replicate]
      omega
  · intro hle
    unfold pad_or_truncate
    split
    · rfl
    · rename_i h
      have hlen : v.length = target_dim := by omega
      rw [← hlen]
      simp [List.take_length]
  · intro hlt
    unfold pad_or_truncate
    split
    · rename_i h
      omega
    · rfl

/-- C5 witness: a 2-dimensional raw vector requested at dimension 5 is
zero-padded on the right to length 5. -/
theorem get_embedding_length_witness :
    get_embedding genv_pad "x" 5 = Except.ok (pad_or_truncate [1.0, 2.0] 5) ∧
    (pad_or_truncate [1.0, 2.0] 5).length = 5 ∧
    pad_or_truncate [1.0, 2.0] 5 = [1.0, 2.0] ++ List.replicate 3 0.0 :=
  have h := get_embedding_length genv_pad "x" 5 [1.0, 2.0] rfl
  ⟨h.1, h.2.1, h.2.2.2 (by decide)⟩

/-- C2 counterexample: when the embedding model raises a generic (non-
Milvus) exception, `perform_search` propagates it instead of returning
the empty sequence — its `except` clause only catches `MilvusException`. -/
theorem perform_search_embed_error_propagates :
    perform_search genv_embed_down "what is x"
      = Except.error (PyErr.otherError "embedding model failure") ∧
    perform_search genv_embed_down "what is x" ≠ Except.ok [] := by
  constructor
  · rfl
  · intro h
    rw [show perform_search genv_embed_down "what is x"
        = Except.error (PyErr.otherError "embedding model failure") from rfl] at h
    exact Except.noConfusion h

end GeminiFinal

/-- C2 (amended): `search_text_chunks` and `search_images` return the
empty sequence whenever their underlying composite index call raises;
`perform_search` returns the empty sequence when the Milvus similarity
query raises a `MilvusException` (its only caught class), while an
embedding-layer exception propagates (see the counterexample). -/
theorem search_failure_degrades_to_empty :
    (∀ (env : MMRag.Env) (q : String) (k : Nat) (e : MMRag.Err),
        env.text_index q k = Except.error e →
        MMRag.search_text_chunks env q k = []) ∧
    (∀ (env : MMRag.Env) (q : String) (k : Nat) (e : MMRag.Err),
        env.image_index q k = Except.error e →
        MMRag.search_images env q k = []) ∧
    (∀ (genv : GeminiFinal.GEnv) (q : String) (v : List Float) (msg : String),
        genv.encode (GeminiFinal.preprocess_query genv q) = Except.ok v →
        genv.collection_search (GeminiFinal.pad_or_truncate v 384) 5
          = Except.error (GeminiFinal.PyErr.milvusException msg) →
        GeminiFinal.perform_search genv q = Except.ok []) := by
  refine ⟨?_, ?_, ?_⟩
  · intro env q k e h
    simp [MMRag.search_text_chunks, h]
  · intro env q k e h
    simp [MMRag.search_images, h]
  · intro genv q v msg henc hsearch
    simp [GeminiFinal.perform_search, GeminiFinal.get_embedding, henc, hsearch]

/-- C2 witness: the three degradations evaluated in concrete broken
environments. -/
theorem search_failure_degrades_to_empty_witness :
    MMRag.search_text_chunks MMRag.env_down "q" 5 = [] ∧
    MMRag.search_images MMRag.env_down "q" 3 = [] ∧
    GeminiFinal.perform_search GeminiFinal.genv_milvus_down "q" = Except.ok [] :=
  ⟨search_failure_degrades_to_empty.1 MMRag.env_down "q" 5 "milvus down" rfl,
   search_failure_degrades_to_empty.2.1 MMRag.env_down "q" 3 "milvus down" rfl,
   search_failure_degrades_to_empty.2.2 GeminiFinal.genv_milvus_down "q"
     [1.0] "milvus down" rfl rfl⟩

namespace MMRag

/-- Branch characterization: the smoke test raising resolves to the
outermost fallback dictionary. -/
theorem generate_eq_of_test_error (env : Env) (q : String) (e : Err)
    (h1 : env.llm_invoke test_prompt = Except.error e) :
    generate_combined_response env q
      = { answer_text := outer_apology, image_results := [],
          has_images := false, original_query := q } := by
  unfold generate_combined_response generate_body
  rw [h1]

/-- Branch characterization: smoke test and direct generation succeed. -/
theorem generate_eq_of_direct_ok (env : Env) (q s r : String)
    (h1 : env.llm_invoke test_prompt = Except.ok s)
    (h2 : env.llm_invoke
        (build_prompt q (search_text_chunks env q) (search_images env q))
      = Except.ok r) :
    generate_combined_response env q
      = { answer_text := r, image_results := search_images env q,
          has_images := decide ((search_images env q).length > 0),
          original_query := q } := by
  unfold generate_combined_response generate_body
  rw [h1]
  simp only [h2]

/-- Branch characterization: direct generation fails, the agent
succeeds. -/
theorem generate_eq_of_agent_ok (env : Env) (q s : String) (e2 : Err)
    (a : String)
    (h1 : env.llm_invoke test_prompt = Except.ok s)
    (h2 : env.llm_invoke
        (build_prompt q (search_text_chunks env q) (search_images env q))
      = Except.error e2)
    (h3 : env.agent_run (agent_prompt q) = Except.ok a) :
    generate_combined_response env q
      = { answer_text := a, image_results := search_images env q,
          has_images := decide ((search_images env q).length > 0),
          original_query := q } := by
  unfold generate_combined_response generate_body
  rw [h1]
  simp only [h2, h3]

/-- Branch characterization: direct generation and the agent both fail
after a successful smoke test. -/
theorem generate_eq_of_both_fail (env : Env) (q s : String) (e2 e3 : Err)
    (h1 : env.llm_invoke test_prompt = Except.ok s)
    (h2 : env.llm_invoke
        (build_prompt q (search_text_chunks env q) (search_images env q))
      = Except.error e2)
    (h3 : env.agent_run (agent_prompt q) = Except.error e3) :
    generate_combined_response env q
      = { answer_text := inner_apology, image_results := search_images env q,
          has_images := decide ((search_images env q).length > 0),
          original_query := q } := by
  unfold generate_combined_response generate_body
  rw [h1]
  simp only [h2, h3]

/-- C1: `generate_combined_response` always returns a well-formed
`AnswerResult` (it is a total function into `AnswerResult`, so no failure
ever propagates); whenever the direct tier fails on the built prompt and
the agent tier fails too, `answer_text` is one of the two fixed apology
strings (the inner one when the initial smoke test had succeeded, the
outer one when even the smoke test raised), and `original_query` is still
the caller's query. -/
theorem generate_always_answers (env : Env) (q : String)
    (hdirect : isErr (env.llm_invoke
        (build_prompt q (search_text_chunks env q) (search_images env q))) = true)
    (hagent : isErr (env.agent_run (agent_prompt q)) = true) :
    ((generate_combined_response env q).answer_text = inner_apology ∨
     (generate_combined_response env q).answer_text = outer_apology) ∧
    (generate_combined_response env q).original_query = q := by
  cases h1 : env.llm_invoke test_prompt with
  | error e =>
      rw [generate_eq_of_test_error env q e h1]
      exact ⟨Or.inr rfl, rfl⟩
  | ok s =>
      cases h2 : env.llm_invoke
          (build_prompt q (search_text_chunks env q) (search_images env q)) with
      | ok r =>
          rw [h2] at hdirect
          simp [isErr] at hdirect
      | error e2 =>
          cases h3 : env.agent_run (agent_prompt q) with
          | ok a =>
              rw [h3] at hagent
              simp [isErr] at hagent
          | error e3 =>
              rw [generate_eq_of_both_fail env q s e2 e3 h1 h2 h3]
              exact ⟨Or.inl rfl, rfl⟩

/-- C1 witness: in an environment where every external call raises, the
response is still a well-formed apology. -/
theorem generate_always_answers_witness :
    ((generate_combined_response env_down "q").answer_text = inner_apology ∨
     (generate_combined_response env_down "q").answer_text = outer_apology) ∧
    (generate_combined_response env_down "q").original_query = "q" :=
  generate_always_answers env_down "q" rfl rfl

/-- C10: in every `AnswerResult` returned by `generate_combined_response`
(any tier, outer catch-all included), `has_images` holds exactly when
`image_results` is non-empty. -/
theorem has_images_iff_nonempty (env : Env) (q : String) :
    (generate_combined_response env q).has_images
      = !(generate_combined_response env q).image_results.isEmpty := by
  cases h1 : env.llm_invoke test_prompt with
  | error e =>
      rw [generate_eq_of_test_error env q e h1]
      rfl
  | ok s =>
      cases h2 : env.llm_invoke
          (build_prompt q (search_text_chunks env q) (search_images env q)) with
      | ok r =>
          rw [generate_eq_of_direct_ok env q s r h1 h2]
          exact decide_length_pos _
      | error e2 =>
          cases h3 : env.agent_run (agent_prompt q) with
          | ok a =>
              rw [generate_eq_of_agent_ok env q s e2 a h1 h2 h3]
              exact decide_length_pos _
          | error e3 =>
              rw [generate_eq_of_both_fail env q s e2 e3 h1 h2 h3]
              exact decide_length_pos _

/-- C3: once the smoke test has succeeded, retrieval results are fixed
before any generation tier runs: whichever tier produces the answer, the
returned `image_results`, `has_images` and `original_query` come from the
single pre-generation `search_images`/`search_text_chunks` pass; in
particular, when the direct call on the built prompt fails and the agent
succeeds, `answer_text` is the agent's output while `image_results` is
still the originally retrieved list. -/
theorem retrieval_fixed_before_generation (env : Env) (q : String)
    (htest : isErr (env.llm_invoke test_prompt) = false) :
    (generate_combined_response env q).image_results = search_images env q ∧
    (generate_combined_response env q).original_query = q ∧
    (generate_combined_response env q).has_images
      = decide ((search_images env q).length > 0) ∧
    (∀ a, env.llm_invoke
        (build_prompt q (search_text_chunks env q) (search_images env q))
          = Except.ok a →
      (generate_combined_response env q).answer_text = a) ∧
    (∀ a, isErr (env.llm_invoke
        (build_prompt q (search_text_chunks env q) (search_images env q))) = true →
      env.agent_run (agent_prompt q) = Except.ok a →
      (generate_combined_response env q).answer_text = a) := by
  cases h1 : env.llm_invoke test_prompt with
  | error e =>
      rw [h1] at htest
      simp [isErr] at htest
  | ok s =>
      cases h2 : env.llm_invoke
          (build_prompt q (search_text_chunks env q) (search_images env q)) with
      | ok r =>
          rw [generate_eq_of_direct_ok env q s r h1 h2]
          refine ⟨rfl, rfl, rfl, ?_, ?_⟩
          · intro a ha
            injection ha with ha
          · intro a hd _
            simp [isErr] at hd
      | error e2 =>
          cases h3 : env.agent_run (agent_prompt q) with
          | ok a0 =>
              rw [generate_eq_of_agent_ok env q s e2 a0 h1 h2 h3]
              refine ⟨rfl, rfl, rfl, ?_, ?_⟩
              · intro a ha
                exact Except.noConfusion ha
              · intro a _ ha
                injection ha with ha
          | error e3 =>
              rw [generate_eq_of_both_fail env q s e2 e3 h1 h2 h3]
              refine ⟨rfl, rfl, rfl, ?_, ?_⟩
              · intro a ha
                exact Except.noConfusion ha
              · intro a _ ha
                exact Except.noConfusion ha

set_option maxRecDepth 100000 in
/-- C3 witness: direct generation fails and the agent succeeds; the
answer is the agent's output and the images are the originally retrieved
ones. -/
theorem retrieval_fixed_before_generation_witness :
    (generate_combined_response env_agent "q").answer_text
      = "Agent answer citing Lecture 3." ∧
    (generate_combined_response env_agent "q").image_results
      = search_images env_agent "q" :=
  have h := retrieval_fixed_before_generation env_agent "q" rfl
  ⟨h.2.2.2.2 "Agent answer citing Lecture 3." rfl rfl, h.1⟩

/-- C6: when both retrievers come back empty, the prompt's context slots
are exactly the fixed sentinels, the surrounding template (its directive
block included) is unchanged, and generation is still attempted: the
direct tier is invoked on that sentinel prompt and its output is
returned. -/
theorem empty_retrieval_sentinels (env : Env) (q out : String)
    (htest : isErr (env.llm_invoke test_prompt) = false)
    (htext : search_text_chunks env q = [])
    (himg : search_images env q = [])
    (hgen : env.llm_invoke (build_prompt q [] []) = Except.ok out) :
    text_block [] = "No relevant text information found." ∧
    image_block [] = "No relevant images found." ∧
    build_prompt q [] []
      = prompt_template q "No relevant text information found."
          "No relevant images found." ∧
    generate_combined_response env q
      = { answer_text := out, image_results := [], has_images := false,
          original_query := q } := by
  refine ⟨rfl, rfl, rfl, ?_⟩
  cases h1 : env.llm_invoke test_prompt with
  | error e =>
      rw [h1] at htest
      simp [isErr] at htest
  | ok s =>
      have h2 : env.llm_invoke
          (build_prompt q (search_text_chunks env q) (search_images env q))
          = Except.ok out := by
        rw [htext, himg]
        exact hgen
      rw [generate_eq_of_direct_ok env q s out h1 h2, himg]
      rfl

set_option maxRecDepth 100000 in
/-- C6 witness: with empty retrieval in a concrete environment the
response is the model's best-effort answer over the sentinel prompt. -/
theorem empty_retrieval_sentinels_witness :
    text_block [] = "No relevant text information found." ∧
    image_block [] = "No relevant images found." ∧
    build_prompt "q" [] []
      = prompt_template "q" "No relevant text information found."
          "No relevant images found." ∧
    generate_combined_response env_empty "q"
      = { answer_text := "Answer with no context.", image_results := [],
          has_images := false, original_query := "q" } :=
  empty_retrieval_sentinels env_empty "q" "Answer with no context." rfl rfl rfl rfl

/-- The per-match loop body succeeds exactly on a present payload whose
re-encoding succeeds. -/
theorem processRawMatch_eq_some (env : Env) (m : RawImageMatch)
    (r : ImageMatch) :
    processRawMatch env m = some r ↔
      ∃ img, m.image = some img ∧
        ∃ s, env.encode_image img = Except.ok s ∧ r = mkImageResult m s := by
  unfold processRawMatch
  cases hi : m.image with
  | none => simp
  | some img =>
      cases he : env.encode_image img with
      | error e => simp [he]
      | ok s =>
          simp only [he]
          constructor
          · intro h
            injection h with h
            exact ⟨img, rfl, s, he, h.symm⟩
          · rintro ⟨img2, himg2, s2, hs2, hr⟩
            injection himg2 with himg2
            rw [← himg2] at hs2
            rw [he] at hs2
            injection hs2 with hs2
            rw [hr, hs2]

/-- C7: when the image index call succeeds, every entry of
`search_images` originates from a raw match with a present image payload;
a payload-less candidate is dropped by the loop, and every candidate with
a payload whose re-encoding succeeds still makes it into the batch. -/
theorem search_images_payload_present (env : Env) (q : String) (k : Nat)
    (raws : List RawImageMatch)
    (hidx : env.image_index q k = Except.ok raws) :
    (∀ r ∈ search_images env q k, ∃ m ∈ raws, ∃ img,
        m.image = some img ∧ env.encode_image img = Except.ok r.image_data ∧
        r = mkImageResult m r.image_data) ∧
    (∀ m ∈ raws, m.image = none → processRawMatch env m = none) ∧
    (∀ m ∈ raws, ∀ img s, m.image = some img →
        env.encode_image img = Except.ok s →
        mkImageResult m s ∈ search_images env q k) := by
  have hsearch : search_images env q k = raws.filterMap (processRawMatch env) := by
    simp [search_images, hidx]
  refine ⟨?_, ?_, ?_⟩
  · intro r hr
    rw [hsearch] at hr
    obtain ⟨m, hm, hpm⟩ := List.mem_filterMap.mp hr
    obtain ⟨img, himg, s, henc, hr_eq⟩ := (processRawMatch_eq_some env m r).mp hpm
    refine ⟨m, hm, img, himg, ?_, ?_⟩
    · rw [hr_eq]
      exact henc
    · rw [hr_eq]
      rfl
  · intro m _ hnone
    simp [processRawMatch, hnone]
  · intro m hm img s himg henc
    rw [hsearch]
    refine List.mem_filterMap.mpr ⟨m, hm, ?_⟩
    exact (processRawMatch_eq_some env m (mkImageResult m s)).mpr
      ⟨img, himg, s, henc, rfl⟩

/-- C7 witness: a payload-less candidate is dropped while the complete
one in the same batch is returned. -/
theorem search_images_payload_present_witness :
    processRawMatch env_imgs raw_no_payload = none ∧
    mkImageResult raw_demo "b64:PNGDATA" ∈ search_images env_imgs "q" 3 :=
  have h := search_images_payload_present env_imgs "q" 3
    [raw_no_payload, raw_demo] rfl
  ⟨h.2.1 raw_no_payload (List.mem_cons_self raw_no_payload [raw_demo]) rfl,
   h.2.2 raw_demo
     (List.mem_cons_of_mem raw_no_payload (List.mem_cons_self raw_demo []))
     "PNGDATA" "b64:PNGDATA" rfl rfl⟩

/-- C8 counterexample: a raw image match carrying a payload but no
metadata at all is returned with its caption field set to
`"No text available"`, not to the claimed sentinel `"Unknown"`. -/
theorem search_images_missing_caption_not_unknown :
    search_images env_missing_meta "q" 3
      = [{ image_data := "IMGBYTES", similarity_score := 0,
           lecture_code := "Unknown", lecture_number := "Unknown",
           lecture_title := "Unknown", page_number := "Unknown",
           text := "No text available" }] ∧
    "No text available" ≠ "Unknown" := by
  constructor
  · rfl
  · decide

/-- C8 (amended): construction of a `TextMatch` or `ImageMatch` is total
(never fails on missing metadata); every absent upstream metadata field
defaults to the sentinel `"Unknown"`, except the image caption `text`,
which defaults to `"No text available"`, and `similarity_score`, which
defaults to `0`. -/
theorem metadata_defaults (env : Env) (q : String) (k : Nat)
    (docs : List TextDoc) (d : TextDoc)
    (hidx : env.text_index q k = Except.ok docs) (hd : d ∈ docs) :
    (toTextMatch d ∈ search_text_chunks env q k ∧
      (d.source = none → (toTextMatch d).source = "Unknown") ∧
      (d.page = none → (toTextMatch d).page = "Unknown") ∧
      (d.module_code = none → (toTextMatch d).module_code = "Unknown") ∧
      (d.module_name = none → (toTextMatch d).module_name = "Unknown") ∧
      (d.lecture_number = none → (toTextMatch d).lecture_number = "Unknown") ∧
      (d.lecture_title = none → (toTextMatch d).lecture_title = "Unknown")) ∧
    (∀ (m : RawImageMatch) (s : String),
      (m.lecture_code = none → (mkImageResult m s).lecture_code = "Unknown") ∧
      (m.lecture_number = none → (mkImageResult m s).lecture_number = "Unknown") ∧
      (m.lecture_title = none → (mkImageResult m s).lecture_title = "Unknown") ∧
      (m.page_number = none → (mkImageResult m s).page_number = "Unknown") ∧
      (m.text = none → (mkImageResult m s).text = "No text available") ∧
      (m.similarity_score = none → (mkImageResult m s).similarity_score = 0)) := by
  constructor
  · refine ⟨?_, ?_, ?_, ?_, ?_, ?_, ?_⟩
    · simp only [search_text_chunks, hidx]
      exact List.mem_map_of_mem toTextMatch hd
    · intro h
      simp [toTextMatch, h]
    · intro h
      simp [toTextMatch, h]
    · intro h
      simp [toTextMatch, h]
    · intro h
      simp [toTextMatch, h]
    · intro h
      simp [toTextMatch, h]
    · intro h
      simp [toTextMatch, h]
  · intro m s
    refine ⟨?_, ?_, ?_, ?_, ?_, ?_⟩ <;> intro h <;> simp [mkImageResult, h]

/-- C8 witness: a metadata-less text document still yields a match, with
`"Unknown"` defaults, and a metadata-less image match gets the caption
default. -/
theorem metadata_defaults_witness :
    (toTextMatch doc_missing ∈ search_text_chunks env_text_missing "q" 5 ∧
      (toTextMatch doc_missing).source = "Unknown" ∧
      (toTextMatch doc_missing).lecture_number = "Unknown") ∧
    (mkImageResult raw_all_missing "s").text = "No text available" :=
  have h := metadata_defaults env_text_missing "q" 5 [doc_missing] doc_missing
    rfl (by decide)
  ⟨⟨h.1.1, h.1.2.1 rfl, h.1.2.2.2.2.1 rfl⟩,
   (h.2 raw_all_missing "s").2.2.2.2.1 rfl⟩

/-- C9: the `EmbeddingConfig` built for an ingestion request from a form
`image_weight` in `[0, 1]` has `image_weight + text_weight = 1` exactly
(the call site sets `text_weight = 1.0 - image_weight`); the modelled
config is an immutable value. -/
theorem ingestion_config_weights_sum (image_weight similarity_threshold : ℚ)
    (batch_size : Nat) (use_dim_reduction : Bool) (output_dim : Nat)
    (use_alignment : Bool) (mongo_collection milvus_collection : String)
    (h0 : 0 ≤ image_weight) (h1 : image_weight ≤ 1) :
    (mk_ingestion_config image_weight similarity_threshold batch_size
        use_dim_reduction output_dim use_alignment mongo_collection
        milvus_collection).image_weight +
    (mk_ingestion_config image_weight similarity_threshold batch_size
        use_dim_reduction output_dim use_alignment mongo_collection
        milvus_collection).text_weight = 1 := by
  simp [mk_ingestion_config]

/-- C9 witness: the default form values (`image_weight = 0.3`,
`similarity_threshold = 0.98`, `batch_size = 8`) sum to exactly 1. -/
theorem ingestion_config_weights_sum_witness :
    (mk_ingestion_config (3 / 10) (98 / 100) 8 true 512 true
        "pdf_images_5" "combined_embeddings_5").image_weight +
    (mk_ingestion_config (3 / 10) (98 / 100) 8 true 512 true
        "pdf_images_5" "combined_embeddings_5").text_weight = 1 :=
  ingestion_config_weights_sum (3 / 10) (98 / 100) 8 true 512 true
    "pdf_images_5" "combined_embeddings_5" (by norm_num) (by norm_num)

end MMRag
